import Mathlib

/-!
Verification of the gmail shipment-tracking pipeline
(`gmailtracking.py`, `gmailtrackingmodel.py`).

Python strings are modelled as `List Char`; Python `None` results and raised
exceptions are modelled with `Option` (a function that can either raise or
return `None` uses `Option (Option _)`: the outer `none` is an exception, the
inner one a returned `None`).  External collaborators (the Gmail service, the
HTTP fetcher, BeautifulSoup's HTML parsing, urlextract) are passed in as
oracle functions; everything else is translated from the source.
-/

abbrev Str := List Char

/-- Suffix of `hay` after the first occurrence of `needle`; `none` when
`needle` does not occur.  Used to model `re.search` with a literal pattern
head and Python's `in` substring test. -/
def afterFirst (needle : Str) : Str → Option Str
  | [] => if needle.isPrefixOf ([] : Str) then some [] else none
  | c :: t =>
    if needle.isPrefixOf (c :: t) then some ((c :: t).drop needle.length)
    else afterFirst needle t

/-- Python `needle in hay` (substring containment). -/
def hasSubstr (needle hay : Str) : Bool :=
  (afterFirst needle hay).isSome

-- =====================================================
-- gmailtrackingmodel.py
-- =====================================================

/-- `Address` dataclass (gmailtrackingmodel.py lines 17-24). -/
structure Address where
  line1 : Str
  line2 : Str
  city : Str
  state : Str
  zipcode : Str
  recipient : Option Str := none
deriving DecidableEq, Inhabited

/-- Equality generated by `@dataclass` for `Address`: every field takes part
in the comparison (none of the fields is declared with `compare=False`,
`recipient` included). -/
def addressEq (a b : Address) : Bool :=
  decide (a.line1 = b.line1) && decide (a.line2 = b.line2) &&
  decide (a.city = b.city) && decide (a.state = b.state) &&
  decide (a.zipcode = b.zipcode) && decide (a.recipient = b.recipient)

/-- `Email` dataclass (gmailtrackingmodel.py lines 27-33): `to`, `sender`,
`date`, `subject` are declared `compare=False` (`to` is spelled `toAddr`
here because `to` is reserved in Lean). -/
structure Email where
  Id : Str
  toAddr : Str
  sender : Str
  date : Str
  subject : Option Str := none
deriving DecidableEq, Inhabited

/-- Equality generated by `@dataclass` for `Email`: only `Id` is compared. -/
def emailEq (a b : Email) : Bool :=
  decide (a.Id = b.Id)

/-- `BuyClub` enumeration (gmailtrackingmodel.py lines 36-41). -/
inductive BuyClub where
  | MYS
  | POINTSMAKER
  | USA
  | BFMR
deriving DecidableEq, Inhabited

/-- `str.upper()` on the ASCII data these addresses contain. -/
def strUpper (s : Str) : Str := s.map Char.toUpper

/-- `str.lower()` on the ASCII data these headers contain. -/
def strLower (s : Str) : Str := s.map Char.toLower

/-- `BuyClub.from_address` (gmailtrackingmodel.py lines 43-82); the `Option`
result models the trailing `return None`. -/
def BuyClub.from_address (address : Address) : Option BuyClub :=
  let line1 := strUpper address.line1
  if hasSubstr ("144 QUIGLEY".toList) line1 then some BuyClub.MYS
  else if hasSubstr ("118 PARK".toList) line1 then some BuyClub.POINTSMAKER
  else if hasSubstr ("200 BEDFORD FALLS".toList) line1 then some BuyClub.POINTSMAKER
  else if hasSubstr ("382 W RTE 59".toList) line1 then some BuyClub.USA
  else if hasSubstr ("382 RTE 59".toList) line1 then some BuyClub.USA
  else if hasSubstr ("382 ROUTE 59".toList) line1 then some BuyClub.USA
  else if hasSubstr ("51".toList) line1 && hasSubstr ("BROADWAY".toList) line1 then some BuyClub.BFMR
  else if hasSubstr ("44 INDIAN ROCK".toList) line1 then some BuyClub.BFMR
  else if hasSubstr ("24 TSIENNETO".toList) line1 then some BuyClub.BFMR
  else if hasSubstr ("38 SPRING".toList) line1 then some BuyClub.BFMR
  else if hasSubstr ("112".toList) line1 && hasSubstr ("BROADWAY".toList) line1 then some BuyClub.BFMR
  else if hasSubstr ("9 MAIN".toList) line1 then some BuyClub.BFMR
  else none

/-- `DeliveryService` enumeration (gmailtrackingmodel.py lines 85-90). -/
inductive DeliveryService where
  | UPS
  | FedEx
  | USPS
  | Amazon
deriving DecidableEq, Inhabited

/-- `re.fullmatch("[0-9]{n}", s)`: the whole string is exactly `n` ASCII
digits. -/
def fullmatchDigits (n : Nat) (s : Str) : Bool :=
  decide (s.length = n) && s.all Char.isDigit

/-- `re.fullmatch("[A-Z]{2}[0-9]{9}[A-Z]{2}", s)`. -/
def fullmatchUspsIntl (s : Str) : Bool :=
  decide (s.length = 13) && (s.take 2).all Char.isUpper &&
  ((s.drop 2).take 9).all Char.isDigit && (s.drop 11).all Char.isUpper

/-- `DeliveryService.from_number` (gmailtrackingmodel.py lines 92-109).
`re.match` with a literal pattern is a prefix test; the `Option` result
models the trailing `return None`. -/
def DeliveryService.from_number (trk_number : Str) : Option DeliveryService :=
  if ("TBA".toList).isPrefixOf trk_number then some DeliveryService.Amazon
  else if ("1Z".toList).isPrefixOf trk_number then some DeliveryService.UPS
  else if fullmatchDigits 20 trk_number then some DeliveryService.USPS
  else if fullmatchUspsIntl trk_number then some DeliveryService.USPS
  else if fullmatchDigits 12 trk_number then some DeliveryService.FedEx
  else if fullmatchDigits 15 trk_number then some DeliveryService.FedEx
  else none

/-- `Purchase` dataclass (gmailtrackingmodel.py lines 116-128):
`shipping_service` and `buying_club` are derived in `__post_init__`. -/
structure Purchase where
  email : Email
  tracking_number : Str
  address : Address
  shipping_service : Option DeliveryService
  buying_club : Option BuyClub
deriving DecidableEq, Inhabited

/-- `Purchase(email, tracking_number, address)` including `__post_init__`;
`__post_init__` calls `DeliveryService.from_number` and
`BuyClub.from_address`, which raise (`TypeError`/`AttributeError`) when the
tracking number or the address is `None` — hence the `Option` arguments and
the `none` result in those cases. -/
def mkPurchase (email : Email) (tid : Option Str) (addr : Option Address) :
    Option Purchase :=
  match tid, addr with
  | some t, some a =>
      some ⟨email, t, a, DeliveryService.from_number t, BuyClub.from_address a⟩
  | _, _ => none

/-- Equality generated by `@dataclass` for `Purchase`: `address`,
`shipping_service` and `buying_club` are `compare=False`; the `email` field
compares with `Email` equality (only `Id`). -/
def purchEq (a b : Purchase) : Bool :=
  emailEq a.email b.email && decide (a.tracking_number = b.tracking_number)

-- =====================================================
-- gmailtracking.py : ledger files
-- =====================================================

/-- The list comprehension `[jsonpickle.decode(line) for line in file]`
(gmailtracking.py line 106): it raises as soon as any line fails to
decode, producing no partial list. -/
def decodeAll (decode : Str → Option α) : List Str → Option (List α)
  | [] => some []
  | l :: ls =>
    match decode l, decodeAll decode ls with
    | some a, some as => some (a :: as)
    | _, _ => none

/-- `load` (gmailtracking.py lines 100-108).  `file = none` models a
missing/unopenable file; either that or any decode failure lands in the
bare `except`, which returns the empty list. -/
def load (decode : Str → Option α) (file : Option (List Str)) : List α :=
  match file with
  | none => []
  | some lines =>
    match decodeAll decode lines with
    | some items => items
    | none => []

-- =====================================================
-- gmailtracking.py : parsing text/html
-- =====================================================

/-- The unit-qualifier alternation of the `line1_2` pattern
`(.*) ((STE|UNIT|APT|DEPT|RM|FL|BLDG).*)` (gmailtracking.py line 279). -/
def unitKeywords : List Str :=
  [("STE".toList), ("UNIT".toList), ("APT".toList), ("DEPT".toList),
   ("RM".toList), ("FL".toList), ("BLDG".toList)]

/-- Position `q` can host the literal space of the `line1_2` pattern: the
character at `q` is a space and one of the unit keywords starts at `q+1`.
(No word boundary is required after the keyword: a keyword is recognized as
a bare prefix of the following token.) -/
def qualAt (cs : Str) (q : Nat) : Bool :=
  match cs.drop q with
  | ' ' :: rest => unitKeywords.any (fun kw => kw.isPrefixOf rest)
  | _ => false

/-- Scan positions `n-1, n-2, ..., 0` for the first (hence largest)
qualifying split position: this is the position the greedy `(.*)` of the
`line1_2` pattern backtracks to. -/
def lastQualGo (cs : Str) : Nat → Option Nat
  | 0 => none
  | k + 1 => if qualAt cs k then some k else lastQualGo cs k

/-- The split position chosen by `re.search(r'(.*) ((STE|UNIT|APT|DEPT|RM|FL|BLDG).*)', s)`. -/
def lastQual (cs : Str) : Option Nat :=
  lastQualGo cs cs.length

/-- Groups 1 and 2 of the `line1_2` match (gmailtracking.py lines 278-281);
the inputs reaching this pattern are single lines, for which the greedy
`(.*)` selects the rightmost qualifying space.  `none` models the
`AttributeError` raised by `.group` when `re.search` returns `None`. -/
def parseLine12 (cs : Str) : Option (Str × Str) :=
  (lastQual cs).map (fun q => (cs.take q, cs.drop (q + 1)))

/-- The lazy `.*?([0-9]{5})` tail of the city/state/zip pattern: the first
run of five ASCII digits, with `.` unable to cross a newline. -/
def findZip : Str → Option Str
  | [] => none
  | c :: rest =>
    if decide (((c :: rest).take 5).length = 5) && ((c :: rest).take 5).all Char.isDigit
    then some ((c :: rest).take 5)
    else if c = '\n' then none
    else findZip rest

/-- `re.search(r'([^,]*), ([A-Z]{2}).*?([0-9]{5})', s)` (gmailtracking.py
lines 283-284), with the fuel bounding the number of commas the scan can
advance past: group 1 runs to the first comma after the current start; on
failure the search resumes after that comma. -/
def parseCSZ : Nat → Str → Option (Str × Str × Str)
  | 0, _ => none
  | fuel + 1, cs =>
    let city := cs.takeWhile (fun c => c ≠ ',')
    match cs.drop city.length with
    | ',' :: ' ' :: u1 :: u2 :: tail =>
      if u1.isUpper && u2.isUpper then
        match findZip tail with
        | some z => some (city, ([u1, u2], z))
        | none => parseCSZ fuel (cs.drop (city.length + 1))
      else parseCSZ fuel (cs.drop (city.length + 1))
    | ',' :: _ => parseCSZ fuel (cs.drop (city.length + 1))
    | _ => none

/-- `parse_address` (gmailtracking.py lines 276-290): both patterns must
match; a failed `re.search` makes the following `.group` raise, modelled by
`none`. -/
def parse_address (line1_2 city_state_zip : Str) : Option Address :=
  match parseLine12 line1_2, parseCSZ city_state_zip.length city_state_zip with
  | some (l1, l2), some (city, state, zip) =>
      some ⟨l1, l2, city, state, zip, none⟩
  | _, _ => none

/-- `find_amazon_tracking_urls_in_plaintext_body` (gmailtracking.py lines
293-300), with the URL list extracted by `URLExtract` supplied by the
oracle: the first URL containing both "ship" and "track"; the bare `next`
raises `StopIteration` when there is none. -/
def find_amazon_tracking_urls (urls : List Str) : Option Str :=
  urls.find? (fun u => hasSubstr ("ship".toList) u && hasSubstr ("track".toList) u)

/-- `find_amazon_tracking_ID_in_tracking_url_html` (gmailtracking.py lines
303-313), with the anchor (`<a>` tag) texts extracted by BeautifulSoup
supplied as the input list: the first anchor text CONTAINING "Tracking ID"
is selected, and the returned id is `text[13:]` — the text with its first
THIRTEEN characters removed. -/
def find_amazon_tracking_ID_in_tracking_url_html (atagTexts : List Str) : Option Str :=
  (atagTexts.find? (fun t => hasSubstr ("Tracking ID".toList) t)).map
    (fun t => t.drop 13)

/-- Group 1 of `re.search(r'Delivery Location:=C2=A0([^\n]*[\n][^\n]*)', body)`
followed by `.splitlines()` (gmailtracking.py lines 395-397), returned as the
two lines of the match: the rest of the label's line, and the following
line.  If the first occurrence of the label has no newline after it, no
occurrence has, and the search fails. -/
def upsAddrLines (body : Str) : Option (Str × Str) :=
  match afterFirst ("Delivery Location:=C2=A0".toList) body with
  | none => none
  | some rest =>
    let l1 := rest.takeWhile (fun c => c ≠ '\n')
    match rest.drop l1.length with
    | '\n' :: tail => some (l1, tail.takeWhile (fun c => c ≠ '\n'))
    | _ => none

/-- Group 1 of `re.search(r'Tracking Number:=C2=A0([^\n\r]*)', body)`
(gmailtracking.py lines 457-459). -/
def upsTrackingId (body : Str) : Option Str :=
  (afterFirst ("Tracking Number:=C2=A0".toList) body).map
    (fun rest => rest.takeWhile (fun c => !(c = '\n' || c = '\r')))

/-- A character matching `[\w ,]` (ASCII data): kept by the
`re.sub(r'[^\w ,]', '', ...)` cleanup of the Amazon city/state/zip line. -/
def keepWordSpaceComma (c : Char) : Bool :=
  c.isAlphanum || c = '_' || c = ' ' || c = ','

/-- A character matching `[\w ]` (ASCII data): kept by the
`re.sub(r'[^\w ]', '', ...)` cleanup of the Amazon recipient line. -/
def keepWordSpace (c : Char) : Bool :=
  c.isAlphanum || c = '_' || c = ' '

-- =====================================================
-- gmailtracking.py : Gmail pagination
-- =====================================================

/-- Gmail message dictionary as returned by `messages().list`; only its
`id` key is read by this program. -/
structure MsgDict where
  id : Str
deriving DecidableEq, Inhabited

/-- The `while 'nextPageToken' in response and len(messages) < max_results`
loop of `get_messages` (gmailtracking.py lines 190-194): `pages` are the
message lists the server would return to the successive `pageToken` calls
(which are made WITHOUT a `maxResults` argument), an empty `pages` list
meaning the response carries no `nextPageToken`.  Each iteration extends
`messages` by a whole page. -/
def getMessagesLoop : List MsgDict → List (List MsgDict) → Nat → List MsgDict
  | msgs, [], _ => msgs
  | msgs, p :: ps, mx =>
    if msgs.length < mx then getMessagesLoop (msgs ++ p) ps mx else msgs

/-- `get_messages` (gmailtracking.py lines 173-196): `firstPage` is the
response to the initial `list(maxResults=max_results)` call, `pages` the
responses to the follow-up `pageToken` calls. -/
def get_messages (firstPage : List MsgDict) (pages : List (List MsgDict))
    (max_results : Nat) : List MsgDict :=
  getMessagesLoop firstPage pages max_results

-- =====================================================
-- gmailtracking.py : DeliveryServiceParser and main()
-- =====================================================

/-- A MIME message as the program reads it: the headers used on lines
511-512 and 370, and the two body parts (`get_payload(0)` is the plaintext
body, `get_payload(1)` the HTML body; a missing part makes `get_payload`
raise, hence `Option`). -/
structure Mime where
  fromHeader : Str
  toHeader : Str
  dateHeader : Str
  subjectHeader : Option Str
  plaintext : Option Str
  html : Option Str
deriving DecidableEq, Inhabited

/-- The external collaborators of the run: the Gmail fetch (`none` models a
raised transport exception), `URLExtract().find_urls`, `requests.get`, the
anchor texts BeautifulSoup finds in a fetched page, and the
`stripped_strings` of the Amazon `criticalInfo` element (`none` models
`soup.find(id=...)` returning `None`, on which `.find("td")` raises). -/
structure Collab where
  fetchMime : Str → Option Mime
  findUrls : Str → List Str
  loadUrl : Str → Str
  anchorTexts : Str → List Str
  criticalInfo : Str → Option (List Str)

/-- `DeliveryServiceParser.parse_ds` (gmailtracking.py lines 365-377):
substring tests on the lower-cased From header; the trailing `return None`
is the `none` case (USPS is never produced here). -/
def parse_ds (fromHeader : Str) : Option DeliveryService :=
  let h := strLower fromHeader
  if hasSubstr ("ups.com".toList) h then some DeliveryService.UPS
  else if hasSubstr ("fedex.com".toList) h then some DeliveryService.FedEx
  else if hasSubstr ("amazon.com".toList) h then some DeliveryService.Amazon
  else none

/-- `DeliveryServiceParser.parse_address` (gmailtracking.py lines 379-418).
Result `none` is a raised exception, `some none` the default branch's
`return None`.  The UPS branch requires the second matched line to be
nonempty: `"x\n".splitlines()` has a single element, so `lines[1]` raises.
The Amazon branch reads `stripped_strings` entries 0, 1, 2 of the
`criticalInfo` element, cleans them with `re.sub`, and sets the recipient
on the parsed address. -/
def parse_addressDS (c : Collab) (ds : Option DeliveryService) (m : Mime) :
    Option (Option Address) :=
  match ds with
  | some DeliveryService.UPS =>
    match m.plaintext with
    | none => none
    | some body =>
      match upsAddrLines body with
      | none => none
      | some (l0, l1) =>
        if l1 = [] then none
        else (parse_address l0 l1).map some
  | some DeliveryService.Amazon =>
    match m.html with
    | none => none
    | some htmlBody =>
      match c.criticalInfo htmlBody with
      | none => none
      | some lines =>
        match lines.get? 0, lines.get? 1, lines.get? 2 with
        | some rcpt, some line1_2, some csz =>
          match parse_address line1_2 (csz.filter keepWordSpaceComma) with
          | none => none
          | some addr => some (some { addr with recipient := some (rcpt.filter keepWordSpace) })
        | _, _, _ => none
  | _ => some none

/-- `DeliveryServiceParser.parse_tracking_id` (gmailtracking.py lines
420-469).  Result `none` is a raised exception, `some none` the default
branch's `return None`. -/
def parse_tracking_idDS (c : Collab) (ds : Option DeliveryService) (m : Mime) :
    Option (Option Str) :=
  match ds with
  | some DeliveryService.Amazon =>
    match m.plaintext with
    | none => none
    | some body =>
      match find_amazon_tracking_urls (c.findUrls body) with
      | none => none
      | some url =>
        match find_amazon_tracking_ID_in_tracking_url_html (c.anchorTexts (c.loadUrl url)) with
        | none => none
        | some tid => some (some tid)
  | some DeliveryService.UPS =>
    match m.plaintext with
    | none => none
    | some body =>
      match upsTrackingId body with
      | none => none
      | some tid => some (some tid)
  | _ => some none

/-- The `Email(...)` constructed on lines 511-512 of `main`. -/
def mkEmail (message_id : Str) (m : Mime) : Email :=
  ⟨message_id, m.toHeader, m.fromHeader, m.dateHeader, m.subjectHeader⟩

/-- The `try` block of `main` (gmailtracking.py lines 514-525) up to the
`Purchase` construction: `none` means some step raised and control reaches
the `except` on line 535. -/
def tryExtract (c : Collab) (m : Mime) (em : Email) : Option Purchase :=
  let ds := parse_ds m.fromHeader
  match parse_addressDS c ds m with
  | none => none
  | some addrOpt =>
    match parse_tracking_idDS c ds m with
    | none => none
    | some tidOpt => mkPurchase em tidOpt addrOpt

/-- Python `x in errors` on line 498 compares a Gmail message dictionary
with `Email` dataclass instances: `dict.__eq__` and the dataclass `__eq__`
both return `NotImplemented` across classes, so the comparison is always
`False`. -/
def dictEqEmail (_ : MsgDict) (_ : Email) : Bool := false

/-- The Filtering step of `main` (gmailtracking.py lines 497-498):
`new_messages` drops ids already in the success data, then
`filtered_errors_handled` filters against the error list with the
dict-vs-dataclass comparison above. -/
def filteredMessages (messages : List MsgDict) (processed_ids : List Str)
    (errors : List Email) : List MsgDict :=
  let new_messages := messages.filter (fun x => !(decide (x.id ∈ processed_ids)))
  new_messages.filter (fun x => !(errors.any (fun e => dictEqEmail x e)))

/-- The on-disk ledgers plus the run's tracking-number report; `dataFile`
and `errFile` are the full file contents (`append_to_data` /
`append_to_errors` append one record). -/
structure RunState where
  dataFile : List Purchase
  errFile : List Email
  newtrackingids : List Str
deriving DecidableEq, Inhabited

/-- One iteration of the `for message in filtered_errors_handled` loop of
`main` (gmailtracking.py lines 501-538).  `data` and `errors` are the
in-memory lists loaded at run start — the loop body tests membership
against these, never against the file appends made during the run.  A
failed `GetMimeMessage` (`fetchMime = none`) prints and `continue`s without
touching either ledger. -/
def stepMessage (c : Collab) (data : List Purchase) (errors : List Email)
    (st : RunState) (msg : MsgDict) : RunState :=
  match c.fetchMime msg.id with
  | none => st
  | some mime =>
    match tryExtract c mime (mkEmail msg.id mime) with
    | some purchase =>
      if data.any (fun d => purchEq d purchase) then st
      else { st with dataFile := st.dataFile ++ [purchase],
                     newtrackingids := st.newtrackingids ++ [purchase.tracking_number] }
    | none =>
      if errors.any (fun e => emailEq e (mkEmail msg.id mime)) then st
      else { st with errFile := st.errFile ++ [mkEmail msg.id mime] }

/-- `main` (gmailtracking.py lines 476-541) from the point the message list
is in hand: load both ledgers, filter, then run the per-message loop.
`dataFile0`/`errFile0` are the ledger contents at run start. -/
def runOnce (c : Collab) (dataFile0 : List Purchase) (errFile0 : List Email)
    (messages : List MsgDict) : RunState :=
  let data := dataFile0
  let processed_ids := data.map (fun p => p.email.Id)
  let errors := errFile0
  let filtered := filteredMessages messages processed_ids errors
  filtered.foldl (stepMessage c data errors) ⟨dataFile0, errFile0, []⟩

-- =====================================================
-- Reference definition from the spec (for claim C5)
-- =====================================================

/-- Reference classifier written from the spec's words (section 4.2):
"returns Amazon if the string starts with TBA; UPS if it starts with 1Z;
USPS if it fully matches 20 digits OR fully matches 2 letters + 9 digits +
2 letters; FedEx if it fully matches 12 digits OR 15 digits; else unknown.
Order matters: prefix checks before full-match checks; first satisfied rule
wins."  To be compared with `DeliveryService.from_number`. -/
def specClassifyByTrackingNumber (s : Str) : Option DeliveryService :=
  if ("TBA".toList).isPrefixOf s then some DeliveryService.Amazon
  else if ("1Z".toList).isPrefixOf s then some DeliveryService.UPS
  else if fullmatchDigits 20 s || fullmatchUspsIntl s then some DeliveryService.USPS
  else if fullmatchDigits 12 s || fullmatchDigits 15 s then some DeliveryService.FedEx
  else none

-- =====================================================
-- Concrete instances used by closed theorems and witnesses
-- =====================================================

/-- A collaborator whose Gmail fetch always raises and whose other oracles
return nothing. -/
def collabNone : Collab :=
  ⟨fun _ => none, fun _ => [], fun _ => [], fun _ => [], fun _ => none⟩

/-- The UPS-style plaintext body of the spec's end-to-end scenario. -/
def bodyC8 : Str :=
  ("Delivery Location:=C2=A0123 Main St APT 4\nSpringfield, IL 62704\nTracking Number:=C2=A01Z123\n").toList

/-- A UPS shipment message carrying `bodyC8` as its plaintext part. -/
def mimeUps : Mime :=
  ⟨("UPS Quantum View <mcinfo@ups.com>".toList), ("me@example.org".toList),
   ("Mon, 1 Apr 2019".toList), some ("Delivery update".toList), some bodyC8, none⟩

/-- An error-ledger entry for message id "m1". -/
def emailM1 : Email := ⟨("m1".toList), [], [], [], none⟩

/-- A collaborator that successfully fetches `mimeUps` for every id. -/
def collabUps : Collab :=
  ⟨fun _ => some mimeUps, fun _ => [], fun _ => [], fun _ => [], fun _ => none⟩

/-- An address whose recipient is set. -/
def addrRcpt : Address :=
  ⟨("144 QUIGLEY BLVD".toList), ("STE 4".toList), ("NEW CASTLE".toList),
   ("DE".toList), ("19720".toList), some ("Alice".toList)⟩

/-- The same address with the recipient cleared. -/
def addrNoRcpt : Address := { addrRcpt with recipient := none }

/-- A success-ledger entry for message id "s1". -/
def purchS1 : Purchase :=
  ⟨⟨("s1".toList), [], [], [], none⟩, ("1Z9".toList), addrNoRcpt, none, none⟩

/-- A FedEx shipment message (a carrier with no extraction branch). -/
def mimeFedex : Mime :=
  ⟨("FedEx <trackingupdates@fedex.com>".toList), ("me@example.org".toList),
   ("Tue, 2 Apr 2019".toList), none, some [], none⟩

/-- A collaborator that successfully fetches `mimeFedex` for every id. -/
def collabFedex : Collab :=
  ⟨fun _ => some mimeFedex, fun _ => [], fun _ => [], fun _ => [], fun _ => none⟩

/-- The toy per-line decoder used to exercise the ledger loader: a line of
digits decodes to the number it spells, anything else is corrupt. -/
def decodeNatLine (s : Str) : Option Nat :=
  if !s.isEmpty && s.all Char.isDigit
  then some (s.foldl (fun n c => 10 * n + (c.toNat - 48)) 0)
  else none

-- =====================================================
-- Helper lemmas
-- =====================================================

/-- Any purchase in the ledger after one loop iteration was either already
there or passed the `purchase not in data` guard against the loaded data. -/
theorem stepMessage_data_mem (c : Collab) (data : List Purchase) (errors : List Email)
    (st : RunState) (msg : MsgDict) (q : Purchase)
    (h : q ∈ (stepMessage c data errors st msg).dataFile) :
    q ∈ st.dataFile ∨ data.any (fun d => purchEq d q) = false := by
  unfold stepMessage at h
  split at h
  · exact Or.inl h
  · split at h
    · split at h
      · exact Or.inl h
      · rename_i hcond
        simp only [List.mem_append, List.mem_singleton] at h
        rcases h with h | rfl
        · exact Or.inl h
        · exact Or.inr (by simpa using hcond)
    · split at h
      · exact Or.inl h
      · exact Or.inl h

/-- Any email in the error ledger after one loop iteration was either
already there or passed the `email not in errors` guard against the loaded
errors. -/
theorem stepMessage_err_mem (c : Collab) (data : List Purchase) (errors : List Email)
    (st : RunState) (msg : MsgDict) (e : Email)
    (h : e ∈ (stepMessage c data errors st msg).errFile) :
    e ∈ st.errFile ∨ errors.any (fun x => emailEq x e) = false := by
  unfold stepMessage at h
  split at h
  · exact Or.inl h
  · split at h
    · split at h
      · exact Or.inl h
      · exact Or.inl h
    · split at h
      · exact Or.inl h
      · rename_i hcond
        simp only [List.mem_append, List.mem_singleton] at h
        rcases h with h | rfl
        · exact Or.inl h
        · exact Or.inr (by simpa using hcond)

/-- `stepMessage_data_mem` extended over the whole message loop. -/
theorem runFold_data_mem (c : Collab) (data : List Purchase) (errors : List Email) :
    ∀ (msgs : List MsgDict) (st : RunState) (q : Purchase),
      q ∈ (msgs.foldl (stepMessage c data errors) st).dataFile →
      q ∈ st.dataFile ∨ data.any (fun d => purchEq d q) = false := by
  intro msgs
  induction msgs with
  | nil => exact fun st q h => Or.inl h
  | cons m ms ih =>
    intro st q h
    rcases ih (stepMessage c data errors st m) q h with h1 | h1
    · exact stepMessage_data_mem c data errors st m q h1
    · exact Or.inr h1

/-- `stepMessage_err_mem` extended over the whole message loop. -/
theorem runFold_err_mem (c : Collab) (data : List Purchase) (errors : List Email) :
    ∀ (msgs : List MsgDict) (st : RunState) (e : Email),
      e ∈ (msgs.foldl (stepMessage c data errors) st).errFile →
      e ∈ st.errFile ∨ errors.any (fun x => emailEq x e) = false := by
  intro msgs
  induction msgs with
  | nil => exact fun st e h => Or.inl h
  | cons m ms ih =>
    intro st e h
    rcases ih (stepMessage c data errors st m) e h with h1 | h1
    · exact stepMessage_err_mem c data errors st m e h1
    · exact Or.inr h1

/-- A qualifying split position lies inside the string. -/
theorem qualAt_lt (cs : Str) (q : Nat) (h : qualAt cs q = true) : q < cs.length := by
  by_contra hle
  push_neg at hle
  unfold qualAt at h
  rw [List.drop_eq_nil_of_le hle] at h
  simp at h

/-- The backward scan returns a position at least as large as any
qualifying position below the starting fuel. -/
theorem lastQualGo_ge (cs : Str) :
    ∀ (n q : Nat), q < n → qualAt cs q = true →
      ∃ qq, lastQualGo cs n = some qq ∧ q ≤ qq := by
  intro n
  induction n with
  | zero => intro q hq _; omega
  | succ k ih =>
    intro q hq hqual
    by_cases hk : qualAt cs k = true
    · exact ⟨k, by simp [lastQualGo, hk], by omega⟩
    · have hq' : q < k := by
        rcases Nat.lt_succ_iff_lt_or_eq.mp hq with h | h
        · exact h
        · exact absurd (h ▸ hqual) hk
      rcases ih q hq' hqual with ⟨qq, h1, h2⟩
      exact ⟨qq, by simp [lastQualGo, hk, h1], h2⟩

/-- The one-line-at-a-time decode either succeeds on every line or yields
nothing. -/
theorem decodeAll_eq (decode : Str → Option α) (lines : List Str) :
    decodeAll decode lines =
      (if lines.all (fun l => (decode l).isSome) then some (lines.filterMap decode) else none) := by
  induction lines with
  | nil => rfl
  | cons l ls ih =>
    cases hd : decode l with
    | none => simp [decodeAll, hd]
    | some a =>
      by_cases hall : ls.all (fun l => (decode l).isSome) = true
      · simp [decodeAll, hd, ih, hall]
      · simp [decodeAll, hd, ih, hall]

-- =====================================================
-- Claim theorems
-- =====================================================

/-- Claim C1 (refuted, code bug): the Filtering step does NOT drop a message
whose id is already recorded in the error ledger.  With an empty success
ledger, an error ledger holding the entry for id "m1", and the fetch
returning message "m1": the filter keeps the message (first conjunct), and
running the loop on it passes it to extraction and even appends a Purchase
for it (second conjunct) — because `x not in errors` compares a Gmail dict
with `Email` dataclass instances and is always `True`.  The success-ledger
half of the filter does work (third conjunct). -/
theorem c1_error_ledger_message_processed :
    filteredMessages [⟨("m1".toList)⟩] [] [emailM1] = [⟨("m1".toList)⟩] ∧
    (runOnce collabUps [] [emailM1] [⟨("m1".toList)⟩]).dataFile ≠ [] ∧
    filteredMessages [⟨("m1".toList)⟩] [("m1".toList)] [] = [] := by
  decide

/-- Claim C2 (confirmed): processing the same message id in two successive
runs is idempotent on both ledgers.  If the earlier run left a Purchase
`p0` in the success ledger, the later run's success ledger contains, beyond
the loaded entries, no entry equal (in the dataclass sense, `purchEq`) to
`p0`; if the earlier run left an error entry `e0`, the later run's error
ledger contains, beyond the loaded entries, no entry with `e0`'s id — in
particular a later failure on the same message appends no second error
entry. -/
theorem c2_two_run_idempotence (c : Collab) (dataFile0 : List Purchase)
    (errFile0 : List Email) (messages : List MsgDict) (p0 : Purchase) (e0 : Email)
    (h1 : p0 ∈ dataFile0) (h2 : e0 ∈ errFile0) :
    (∀ q ∈ (runOnce c dataFile0 errFile0 messages).dataFile,
        q ∈ dataFile0 ∨ purchEq p0 q = false) ∧
    (∀ e ∈ (runOnce c dataFile0 errFile0 messages).errFile,
        e ∈ errFile0 ∨ ¬ e.Id = e0.Id) := by
  constructor
  · intro q hq
    have hq' : q ∈ ((filteredMessages messages (dataFile0.map (fun p => p.email.Id)) errFile0).foldl
        (stepMessage c dataFile0 errFile0) ⟨dataFile0, errFile0, []⟩).dataFile := hq
    rcases runFold_data_mem c dataFile0 errFile0
        (filteredMessages messages (dataFile0.map (fun p => p.email.Id)) errFile0)
        ⟨dataFile0, errFile0, []⟩ q hq' with h | h
    · exact Or.inl h
    · right
      rw [List.any_eq_false] at h
      simpa using h p0 h1
  · intro e he
    have he' : e ∈ ((filteredMessages messages (dataFile0.map (fun p => p.email.Id)) errFile0).foldl
        (stepMessage c dataFile0 errFile0) ⟨dataFile0, errFile0, []⟩).errFile := he
    rcases runFold_err_mem c dataFile0 errFile0
        (filteredMessages messages (dataFile0.map (fun p => p.email.Id)) errFile0)
        ⟨dataFile0, errFile0, []⟩ e he' with h | h
    · exact Or.inl h
    · right
      rw [List.any_eq_false] at h
      have := h e0 h2
      simp only [emailEq, decide_eq_true_eq] at this
      exact fun hee => this (hee ▸ rfl)

/-- Witness for C2 at a concrete run: both ledgers already hold an entry and
a run over message "m1" (whose fetch raises) adds nothing conflicting. -/
theorem c2_two_run_idempotence_witness :
    purchS1 ∈ [purchS1] ∧ emailM1 ∈ [emailM1] ∧
    ((∀ q ∈ (runOnce collabNone [purchS1] [emailM1] [⟨("m1".toList)⟩]).dataFile,
        q ∈ [purchS1] ∨ purchEq purchS1 q = false) ∧
     (∀ e ∈ (runOnce collabNone [purchS1] [emailM1] [⟨("m1".toList)⟩]).errFile,
        e ∈ [emailM1] ∨ ¬ e.Id = emailM1.Id)) :=
  ⟨by decide, by decide,
   c2_two_run_idempotence collabNone [purchS1] [emailM1] [⟨("m1".toList)⟩]
     purchS1 emailM1 (by decide) (by decide)⟩

/-- Claim C3 (refuted, code bug): the Amazon tracking-id extractor at the
anchor text "Tracking ID 123456789" returns the text with its first 13
characters removed ("23456789"), not the first 12 as the claim (and the
function's own docstring and the module docstring) state; and it selects an
anchor whose text merely CONTAINS "Tracking ID" even when no anchor text
begins with the label, where the claim says extraction fails. -/
theorem c3_amazon_anchor_selection_eval :
    find_amazon_tracking_ID_in_tracking_url_html [("Tracking ID 123456789".toList)] =
      some ("23456789".toList) ∧
    ("Tracking ID 123456789".toList).drop 12 = ("123456789".toList) ∧
    (("Tracking ID ".toList).isPrefixOf ("See the Tracking ID page".toList) = false ∧
     find_amazon_tracking_ID_in_tracking_url_html [("See the Tracking ID page".toList)] =
       some ("ing ID page".toList)) := by
  decide

/-- Claim C4 counterexample: two Addresses that agree on line1, line2,
city, state and zipcode but differ only in recipient are NOT equal under
the dataclass equality, contradicting the claim that recipient is excluded
from the comparison. -/
theorem c4_recipient_equality_counterexample :
    addrRcpt.line1 = addrNoRcpt.line1 ∧ addrRcpt.line2 = addrNoRcpt.line2 ∧
    addrRcpt.city = addrNoRcpt.city ∧ addrRcpt.state = addrNoRcpt.state ∧
    addrRcpt.zipcode = addrNoRcpt.zipcode ∧
    addressEq addrRcpt addrNoRcpt = false := by
  decide

/-- Claim C4 as amended: Address equality holds if and only if line1,
line2, city, state, zipcode AND recipient are all equal — `recipient` is
not marked `compare=False` and so participates in the dataclass
comparison. -/
theorem c4_address_equality_amended (a b : Address) :
    addressEq a b = true ↔
      (a.line1 = b.line1 ∧ a.line2 = b.line2 ∧ a.city = b.city ∧
       a.state = b.state ∧ a.zipcode = b.zipcode ∧ a.recipient = b.recipient) := by
  simp [addressEq, and_assoc]

/-- Claim C5 (confirmed): `DeliveryService.from_number` is total by
construction (it is a Lean function on all of `Str`; the Python original
applies `re` matchers that never raise on a string) and agrees everywhere
with the spec's reference rule order: TBA-prefix, then 1Z-prefix, then the
two USPS full shapes, then the two FedEx full shapes, else unknown. -/
theorem c5_from_number_total_and_reference (s : Str) :
    DeliveryService.from_number s = specClassifyByTrackingNumber s := by
  unfold DeliveryService.from_number specClassifyByTrackingNumber
  cases h1 : ("TBA".toList).isPrefixOf s <;>
  cases h2 : ("1Z".toList).isPrefixOf s <;>
  cases h3 : fullmatchDigits 20 s <;>
  cases h4 : fullmatchUspsIntl s <;>
  cases h5 : fullmatchDigits 12 s <;>
  cases h6 : fullmatchDigits 15 s <;>
  simp [h1, h2, h3, h4, h5, h6]

/-- Claim C6 (refuted, code bug): `get_messages` can return more than
`max_results` messages.  With `max_results = 4`, a first page of 3 messages
(within the cap) and a continuation page of 3 more, the pagination loop —
whose follow-up `list` calls pass no `maxResults` and extend the list by a
whole page — returns 6 messages. -/
theorem c6_get_messages_cap_exceeded :
    ([⟨("a".toList)⟩, ⟨("b".toList)⟩, ⟨("c".toList)⟩] : List MsgDict).length ≤ 4 ∧
    (get_messages [⟨("a".toList)⟩, ⟨("b".toList)⟩, ⟨("c".toList)⟩]
        [[⟨("d".toList)⟩, ⟨("e".toList)⟩, ⟨("f".toList)⟩]] 4).length = 6 := by
  decide

/-- Claim C7 counterexample: with the digit-line decoder, a ledger file of
lines "17", "oops", "23" loads as the EMPTY list — the two well-formed
lines decode individually, yet the single corrupt line loses the whole
collection, because the one `try` wraps the entire comprehension. -/
theorem c7_corrupt_line_counterexample :
    load decodeNatLine (some [("17".toList), ("oops".toList), ("23".toList)]) = [] ∧
    decodeNatLine ("17".toList) = some 17 ∧
    decodeNatLine ("23".toList) = some 23 ∧
    (17 : Nat) ∉ load decodeNatLine (some [("17".toList), ("oops".toList), ("23".toList)]) := by
  decide

/-- Claim C7 as amended: ledger loading is all-or-nothing, not per-line
isolated — if every line decodes, the whole list of records is
reconstructed; if any line is corrupt (or the file is missing), `load`
returns the empty list and the well-formed lines are lost too. -/
theorem c7_load_amended (decode : Str → Option α) (lines : List Str) :
    load decode (some lines) =
      (if lines.all (fun l => (decode l).isSome) then lines.filterMap decode else []) ∧
    load decode (none : Option (List Str)) = ([] : List α) := by
  refine ⟨?_, rfl⟩
  have hld : load decode (some lines) =
      (match decodeAll decode lines with | some items => items | none => []) := rfl
  rw [hld, decodeAll_eq]
  by_cases h : lines.all (fun l => (decode l).isSome) = true <;> simp [h]

/-- Claim C8 (confirmed): on the spec's UPS-style plaintext body, the UPS
extractor yields exactly Address{line1="123 Main St", line2="APT 4",
city="Springfield", state="IL", zipcode="62704"} and tracking id "1Z123",
and the lexical classifier maps "1Z123" to UPS. -/
theorem c8_ups_end_to_end :
    parse_addressDS collabNone (some DeliveryService.UPS) mimeUps =
      some (some ⟨("123 Main St".toList), ("APT 4".toList), ("Springfield".toList),
                  ("IL".toList), ("62704".toList), none⟩) ∧
    parse_tracking_idDS collabNone (some DeliveryService.UPS) mimeUps =
      some (some ("1Z123".toList)) ∧
    DeliveryService.from_number ("1Z123".toList) = some DeliveryService.UPS := by
  decide

/-- Claim C9 (confirmed): for a fetched message whose sender classifies to
no extractor (`parse_ds` yields unknown, FedEx or USPS), both parser
branches fall through to their `return None` default without touching the
body, the `Purchase` construction then raises (modelled by `tryExtract`
returning `none`), the success ledger is untouched, and the message's
`Email` is appended to the error ledger unless an entry with its id is
already there — it is never silently dropped, and the fold simply moves on
to the next message. -/
theorem c9_unknown_carrier_to_error_ledger (c : Collab) (data : List Purchase)
    (errors : List Email) (st : RunState) (msg : MsgDict) (mime : Mime)
    (hf : c.fetchMime msg.id = some mime)
    (hds : parse_ds mime.fromHeader = none ∨
           parse_ds mime.fromHeader = some DeliveryService.FedEx ∨
           parse_ds mime.fromHeader = some DeliveryService.USPS) :
    parse_addressDS c (parse_ds mime.fromHeader) mime = some none ∧
    parse_tracking_idDS c (parse_ds mime.fromHeader) mime = some none ∧
    tryExtract c mime (mkEmail msg.id mime) = none ∧
    (stepMessage c data errors st msg).dataFile = st.dataFile ∧
    (stepMessage c data errors st msg).errFile =
      (if errors.any (fun e => emailEq e (mkEmail msg.id mime)) then st.errFile
       else st.errFile ++ [mkEmail msg.id mime]) := by
  have haddr : parse_addressDS c (parse_ds mime.fromHeader) mime = some none := by
    rcases hds with h | h | h <;> rw [h] <;> rfl
  have htid : parse_tracking_idDS c (parse_ds mime.fromHeader) mime = some none := by
    rcases hds with h | h | h <;> rw [h] <;> rfl
  have htry : tryExtract c mime (mkEmail msg.id mime) = none := by
    have hz : tryExtract c mime (mkEmail msg.id mime) =
        (match parse_addressDS c (parse_ds mime.fromHeader) mime with
         | none => none
         | some addrOpt =>
           match parse_tracking_idDS c (parse_ds mime.fromHeader) mime with
           | none => none
           | some tidOpt => mkPurchase (mkEmail msg.id mime) tidOpt addrOpt) := rfl
    rw [hz, haddr, htid]
    rfl
  have hstep : stepMessage c data errors st msg =
      (if errors.any (fun e => emailEq e (mkEmail msg.id mime)) then st
       else { st with errFile := st.errFile ++ [mkEmail msg.id mime] }) := by
    have hz : stepMessage c data errors st msg =
        (match tryExtract c mime (mkEmail msg.id mime) with
         | some purchase =>
           if data.any (fun d => purchEq d purchase) then st
           else { st with dataFile := st.dataFile ++ [purchase],
                          newtrackingids := st.newtrackingids ++ [purchase.tracking_number] }
         | none =>
           if errors.any (fun e => emailEq e (mkEmail msg.id mime)) then st
           else { st with errFile := st.errFile ++ [mkEmail msg.id mime] }) := by
      unfold stepMessage
      rw [hf]
    rw [hz, htry]
  refine ⟨haddr, htid, htry, ?_, ?_⟩
  · rw [hstep]
    by_cases hc : errors.any (fun e => emailEq e (mkEmail msg.id mime)) = true <;> simp [hc]
  · rw [hstep]
    by_cases hc : errors.any (fun e => emailEq e (mkEmail msg.id mime)) = true <;> simp [hc]

/-- Witness for C9: a FedEx-sender message fetched as "m9" against empty
ledgers lands in the error ledger. -/
theorem c9_unknown_carrier_to_error_ledger_witness :
    collabFedex.fetchMime ("m9".toList) = some mimeFedex ∧
    (parse_ds mimeFedex.fromHeader = none ∨
     parse_ds mimeFedex.fromHeader = some DeliveryService.FedEx ∨
     parse_ds mimeFedex.fromHeader = some DeliveryService.USPS) ∧
    (parse_addressDS collabFedex (parse_ds mimeFedex.fromHeader) mimeFedex = some none ∧
     parse_tracking_idDS collabFedex (parse_ds mimeFedex.fromHeader) mimeFedex = some none ∧
     tryExtract collabFedex mimeFedex (mkEmail ("m9".toList) mimeFedex) = none ∧
     (stepMessage collabFedex [] [] ⟨[], [], []⟩ ⟨("m9".toList)⟩).dataFile = RunState.dataFile ⟨[], [], []⟩ ∧
     (stepMessage collabFedex [] [] ⟨[], [], []⟩ ⟨("m9".toList)⟩).errFile =
       (if List.any [] (fun e => emailEq e (mkEmail ("m9".toList) mimeFedex)) then RunState.errFile ⟨[], [], []⟩
        else RunState.errFile ⟨[], [], []⟩ ++ [mkEmail ("m9".toList) mimeFedex])) :=
  ⟨rfl, Or.inr (Or.inl (by decide)),
   c9_unknown_carrier_to_error_ledger collabFedex [] [] ⟨[], [], []⟩ ⟨("m9".toList)⟩ mimeFedex
     rfl (Or.inr (Or.inl (by decide)))⟩

/-- Claim C10 (confirmed): in the line1/line2 split, a position qualifies
when a unit keyword is a bare PREFIX of the space-preceded token there
(`qualAt`), the chosen split position is at least every qualifying one
(the greedy `(.*)` backtracks from the right), and the two cited examples
evaluate as claimed: "123 STEVENS ST" splits at the bare "STE" prefix of
"STEVENS", and "100 Main St APT 3 FL 2" splits at the rightmost keyword
"FL", not at "APT". -/
theorem c10_unit_keyword_rightmost_split :
    (∀ (cs : Str) (q : Nat), qualAt cs q = true →
      ∃ qq, lastQual cs = some qq ∧ q ≤ qq) ∧
    parseLine12 ("123 STEVENS ST".toList) = some (("123".toList), ("STEVENS ST".toList)) ∧
    parseLine12 ("100 Main St APT 3 FL 2".toList) =
      some (("100 Main St APT 3".toList), ("FL 2".toList)) := by
  refine ⟨?_, by decide, by decide⟩
  intro cs q h
  exact lastQualGo_ge cs cs.length q (qualAt_lt cs q h) h

/-- Witness for C10: position 11 of "100 Main St APT 3 FL 2" (the space
before "APT") qualifies, and the chosen split position is at least 11 (it
is 17, the space before "FL"). -/
theorem c10_unit_keyword_rightmost_split_witness :
    qualAt ("100 Main St APT 3 FL 2".toList) 11 = true ∧
    (∃ qq, lastQual ("100 Main St APT 3 FL 2".toList) = some qq ∧ 11 ≤ qq) :=
  ⟨by decide,
   c10_unit_keyword_rightmost_split.1 ("100 Main St APT 3 FL 2".toList) 11 (by decide)⟩
